import Mathlib

/-!
Verification of the `TeacherCompetencyFSM` flow (`src/teacher_bot_new.py`)
of the Jugalbandi-Manager repository.

The flow file defines a finite-state machine instance: a list of states,
a declarative transition table with guard names, guard predicates over a
pydantic variable store (`TeacherCompetencyVariables`), and one handler
(`on_enter_<state>`) per state.  Handlers mutate the variable store, emit
messages through `send_message`, and set `self.status`; generation-provider
calls (`Parser.parse_user_input`) return JSON-shaped data.

The engine that drives the flow (`AbstractFSM` of `jb_manager_bot`) is part
of the repository but is not under `src/`; its run loop, status protocol and
edge selection are modelled from the specification (sections 4.1-4.3) and
marked `Modelled from the spec:` below.  Everything else is translated
directly from `src/teacher_bot_new.py`.
-/

/-! ## JSON values

Python handlers receive `json.loads`-parsed payloads and provider responses
that are plain JSON data (dicts, lists, strings, ints).  `Json` is the value
type; object fields keep insertion order like Python dicts. -/

inductive Json where
  | null : Json
  | bool (b : Bool) : Json
  | num (n : Int) : Json
  | str (s : String) : Json
  | arr (xs : List Json) : Json
  | obj (fields : List (String × Json)) : Json

mutual

/-- Python `==` on JSON data.  Structural; object comparison is modelled as
order-sensitive field-list comparison (the flow only ever compares scalar
`question_id` values, where this coincides with Python `==`). -/
def Json.beq : Json → Json → Bool
  | .null, .null => true
  | .bool a, .bool b => a == b
  | .num a, .num b => a == b
  | .str a, .str b => a == b
  | .arr as, .arr bs => Json.beqList as bs
  | .obj as, .obj bs => Json.beqFields as bs
  | _, _ => false

def Json.beqList : List Json → List Json → Bool
  | [], [] => true
  | a :: as, b :: bs => Json.beq a b && Json.beqList as bs
  | _, _ => false

def Json.beqFields : List (String × Json) → List (String × Json) → Bool
  | [], [] => true
  | (k, a) :: as, (l, b) :: bs => k == l && Json.beq a b && Json.beqFields as bs
  | _, _ => false

end

/-- Python exceptions that the handlers of this flow can raise. -/
inductive PyErr where
  | keyError (k : String) : PyErr
  | indexError : PyErr
  | typeError : PyErr
  | jsonDecodeError : PyErr
  | nameError : PyErr
  | validationError : PyErr
  deriving DecidableEq, Repr

/-- Python subscript `d[k]` on a dict: `KeyError` when the key is missing,
`TypeError` when the value is not a dict. -/
def Json.getKey : Json → String → Except PyErr Json
  | .obj fs, k =>
      match fs.lookup k with
      | some v => .ok v
      | none => .error (.keyError k)
  | _, _ => .error .typeError

/-- Python subscript `l[i]` on a list: `IndexError` out of range,
`TypeError` when the value is not a list. -/
def Json.index : Json → Nat → Except PyErr Json
  | .arr xs, i =>
      match xs.get? i with
      | some v => .ok v
      | none => .error .indexError
  | _, _ => .error .typeError

/-- Treat a JSON value as a list (Python iteration / list comprehension over
a non-list raises `TypeError`). -/
def Json.asArr : Json → Except PyErr (List Json)
  | .arr xs => .ok xs
  | _ => .error .typeError

/-- Treat a JSON value as a string.  Used where Python requires `str`
(string concatenation with `+`, pydantic `str`-typed constructor fields). -/
def Json.asStr : Json → Except PyErr String
  | .str s => .ok s
  | _ => .error .typeError

/-- Python `f"{x}"` rendering of a JSON value (`str()`); container rendering
is abbreviated since no flow behaviour depends on it. -/
def Json.pyStr : Json → String
  | .str s => s
  | .num n => toString n
  | .bool true => "True"
  | .bool false => "False"
  | .null => "None"
  | .arr _ => "[...]"
  | .obj _ => "\x7b...\x7d"

/-! ## A model of `json.loads`

Recursive-descent parser for the JSON subset the flow exchanges
(strings without escape sequences, integers, booleans, null, arrays,
objects).  `fuel` bounds nesting; callers pass the input length, which is
always sufficient. -/

def isJsonWs (c : Char) : Bool :=
  c == ' ' || c == '\t' || c == '\n' || c == '\r'

def skipWs : List Char → List Char
  | [] => []
  | c :: cs => if isJsonWs c then skipWs cs else c :: cs

/-- Parse the body of a string literal after the opening quote (no escapes). -/
def parseStringBody : List Char → Option (String × List Char)
  | [] => none
  | c :: cs =>
      if c == '"' then some ("", cs)
      else
        match parseStringBody cs with
        | some (s, rest) => some (String.mk (c :: s.data), rest)
        | none => none

def takeDigits : List Char → List Char × List Char
  | [] => ([], [])
  | c :: cs =>
      if c.isDigit then
        let (ds, r) := takeDigits cs
        (c :: ds, r)
      else ([], c :: cs)

def digitsToNat (ds : List Char) : Nat :=
  ds.foldl (fun a c => a * 10 + (c.toNat - 48)) 0

mutual

def parseJ : Nat → List Char → Option (Json × List Char)
  | 0, _ => none
  | f + 1, input =>
      match skipWs input with
      | [] => none
      | c :: cs =>
          if c == '"' then
            match parseStringBody cs with
            | some (s, rest) => some (.str s, rest)
            | none => none
          else if c == '[' then
            match skipWs cs with
            | ']' :: rest => some (.arr [], rest)
            | rest =>
                match parseArrItems f rest with
                | some (js, rest2) => some (.arr js, rest2)
                | none => none
          else if c == '\x7b' then
            match skipWs cs with
            | '\x7d' :: rest => some (.obj [], rest)
            | rest =>
                match parseObjItems f rest with
                | some (kvs, rest2) => some (.obj kvs, rest2)
                | none => none
          else if c == 't' then
            match cs with
            | 'r' :: 'u' :: 'e' :: rest => some (.bool true, rest)
            | _ => none
          else if c == 'f' then
            match cs with
            | 'a' :: 'l' :: 's' :: 'e' :: rest => some (.bool false, rest)
            | _ => none
          else if c == 'n' then
            match cs with
            | 'u' :: 'l' :: 'l' :: rest => some (.null, rest)
            | _ => none
          else if c == '-' then
            match takeDigits cs with
            | ([], _) => none
            | (ds, rest) => some (.num (-(digitsToNat ds : Int)), rest)
          else if c.isDigit then
            match takeDigits (c :: cs) with
            | (ds, rest) => some (.num (digitsToNat ds), rest)
          else none

def parseArrItems : Nat → List Char → Option (List Json × List Char)
  | 0, _ => none
  | f + 1, input =>
      match parseJ f input with
      | none => none
      | some (j, rest) =>
          match skipWs rest with
          | ',' :: rest2 =>
              match parseArrItems f rest2 with
              | some (js, rest3) => some (j :: js, rest3)
              | none => none
          | ']' :: rest2 => some ([j], rest2)
          | _ => none

def parseObjItems : Nat → List Char → Option (List (String × Json) × List Char)
  | 0, _ => none
  | f + 1, input =>
      match skipWs input with
      | '"' :: cs =>
          match parseStringBody cs with
          | some (k, rest) =>
              match skipWs rest with
              | ':' :: rest2 =>
                  match parseJ f rest2 with
                  | some (vj, rest3) =>
                      match skipWs rest3 with
                      | ',' :: rest4 =>
                          match parseObjItems f rest4 with
                          | some (kvs, rest5) => some ((k, vj) :: kvs, rest5)
                          | none => none
                      | '\x7d' :: rest4 => some ([(k, vj)], rest4)
                      | _ => none
                  | none => none
              | _ => none
          | none => none
      | _ => none

end

/-- `json.loads`: parse a complete JSON document; trailing garbage or a parse
failure raises `json.JSONDecodeError`. -/
def json_loads (s : String) : Except PyErr Json :=
  match parseJ (s.length + 1) s.data with
  | some (j, rest) =>
      if (skipWs rest).isEmpty then .ok j else .error .jsonDecodeError
  | none => .error .jsonDecodeError

/-! ## Status protocol and states -/

/-- Modelled from the spec: the four status values of the run-loop protocol
(`Status` of `jb_manager_bot.data_models`, not under `src/`).
`WAIT_FOR_ME` is the transient PROCESSING marker; `MOVE_FORWARD` is ADVANCE;
`WAIT_FOR_USER_INPUT` is AWAIT_USER_INPUT; `WAIT_FOR_CALLBACK` is
AWAIT_CALLBACK. -/
inductive Status where
  | WAIT_FOR_ME : Status
  | MOVE_FORWARD : Status
  | WAIT_FOR_USER_INPUT : Status
  | WAIT_FOR_CALLBACK : Status
  deriving DecidableEq, Repr

/-- The three terminal statuses of the protocol (ADVANCE, AWAIT_USER_INPUT,
AWAIT_CALLBACK); `WAIT_FOR_ME` is non-terminal. -/
def Status.isTerminal : Status → Bool
  | .WAIT_FOR_ME => false
  | .MOVE_FORWARD => true
  | .WAIT_FOR_USER_INPUT => true
  | .WAIT_FOR_CALLBACK => true

/-- The 23 states of `TeacherCompetencyFSM.states`. -/
inductive St where
  | zero
  | language_selection
  | welcome_message_display
  | collect_name
  | collect_name_logic
  | collect_subject
  | collect_subject_logic
  | collect_grade
  | collect_grade_logic
  | confirmation
  | show_question
  | question_answer_input
  | answer_input_logic
  | waiting_message
  | calculate_score
  | thankyou_message
  | home_screen
  | home_screen_logic
  | learn_competencies
  | assessment
  | resources_tips
  | help_support
  | end_state
  deriving DecidableEq, Repr

/-! ## Variable store

`TeacherCompetencyVariables` (pydantic `BaseModel`).  Fields that Python can
hold as `None` or as raw JSON data are `Option`/`Json`; pydantic does not
validate plain attribute assignment (`validate_assignment` is off), so
assigned values are stored as-is. -/

structure Variables where
  name : Option String := none
  language : Option String := none
  subject : Option String := none
  grade : Option String := none
  competency_domain : Option String := none
  quiz_score : Option Int := none
  home_screen_option : Option Json := none
  question_list : Option Json := none
  total_num_question : Nat := 5
  question_count : Nat := 0
  current_question_id : Option Json := none
  user_input_param : List Json := []

/-- The pydantic defaults of `TeacherCompetencyVariables`. -/
def initVars : Variables := {}

/-! ## Guards -/

def is_learn_competencies_selected (v : Variables) : Bool :=
  match v.home_screen_option with
  | some j => Json.beq j (.str "competencies")
  | none => false

def is_assessment_selected (v : Variables) : Bool :=
  match v.home_screen_option with
  | some j => Json.beq j (.str "assessment")
  | none => false

def is_resources_tips_selected (v : Variables) : Bool :=
  match v.home_screen_option with
  | some j => Json.beq j (.str "resources")
  | none => false

def is_help_support_selected (v : Variables) : Bool :=
  match v.home_screen_option with
  | some j => Json.beq j (.str "help")
  | none => false

def is_send_another_question (v : Variables) : Bool :=
  if v.total_num_question == v.question_count then false else true

/-- The guard names appearing in the `conditions` column of the table. -/
inductive GuardName where
  | is_learn_competencies_selected
  | is_assessment_selected
  | is_resources_tips_selected
  | is_help_support_selected
  | is_send_another_question
  deriving DecidableEq, Repr

def evalGuard : GuardName → Variables → Bool
  | .is_learn_competencies_selected => is_learn_competencies_selected
  | .is_assessment_selected => is_assessment_selected
  | .is_resources_tips_selected => is_resources_tips_selected
  | .is_help_support_selected => is_help_support_selected
  | .is_send_another_question => is_send_another_question

/-! ## Transition table -/

structure Transition where
  source : St
  dest : St
  trigger : String
  conditions : Option GuardName := none
  deriving DecidableEq, Repr

/-- `TeacherCompetencyFSM.transitions`, transcribed in declaration order
(the three commented-out return edges of the source are absent). -/
def transitions : List Transition := [
  { source := .zero, dest := .language_selection, trigger := "next" },
  { source := .language_selection, dest := .welcome_message_display, trigger := "next" },
  { source := .welcome_message_display, dest := .collect_name, trigger := "next" },
  { source := .collect_name, dest := .collect_name_logic, trigger := "next" },
  { source := .collect_name_logic, dest := .collect_subject, trigger := "next" },
  { source := .collect_subject, dest := .collect_subject_logic, trigger := "next" },
  { source := .collect_subject_logic, dest := .collect_grade, trigger := "next" },
  { source := .collect_grade, dest := .collect_grade_logic, trigger := "next" },
  { source := .collect_grade_logic, dest := .confirmation, trigger := "next" },
  { source := .confirmation, dest := .home_screen, trigger := "next" },
  { source := .home_screen, dest := .home_screen_logic, trigger := "next" },
  { source := .home_screen_logic, dest := .learn_competencies, trigger := "next",
    conditions := some .is_learn_competencies_selected },
  { source := .home_screen_logic, dest := .assessment, trigger := "next",
    conditions := some .is_assessment_selected },
  { source := .home_screen_logic, dest := .resources_tips, trigger := "next",
    conditions := some .is_resources_tips_selected },
  { source := .home_screen_logic, dest := .help_support, trigger := "next",
    conditions := some .is_help_support_selected },
  { source := .assessment, dest := .show_question, trigger := "next" },
  { source := .show_question, dest := .question_answer_input, trigger := "next" },
  { source := .question_answer_input, dest := .answer_input_logic, trigger := "next" },
  { source := .answer_input_logic, dest := .show_question, trigger := "next",
    conditions := some .is_send_another_question },
  { source := .answer_input_logic, dest := .waiting_message, trigger := "next" },
  { source := .waiting_message, dest := .calculate_score, trigger := "next" },
  { source := .calculate_score, dest := .thankyou_message, trigger := "next" },
  { source := .learn_competencies, dest := .home_screen, trigger := "next" },
  { source := .thankyou_message, dest := .home_screen, trigger := "next" }
]

/-- The edges leaving `s` for trigger `next`, in declaration order. -/
def nextEdges (s : St) : List Transition :=
  transitions.filter (fun t => t.source == s && t.trigger == "next")

/-- Whether an edge can be taken on store `v`: an unconditional edge always,
a guarded edge when its guard evaluates true. -/
def edgeTaken (v : Variables) (t : Transition) : Bool :=
  match t.conditions with
  | none => true
  | some g => evalGuard g v

/-- Modelled from the spec: edge selection of the engine (spec section 4.2,
the engine is not under `src/`): filter edges by source and trigger, take
the first edge in declaration order whose guard is true (unconditional
edges always match). -/
def selectNext (v : Variables) (s : St) : Option St :=
  ((nextEdges s).find? (edgeTaken v)).map (fun t => t.dest)

/-! ## Messages and handler results -/

/-- Outbound messages, as built by the handlers through `FSMOutput` /
`Message`: plain text, a button set, or an option list. -/
inductive Msg where
  | text (body : String) : Msg
  | button (body : String) (header : String) (footer : String)
      (options : List (String × String)) : Msg
  | optionList (body : String) (header : String) (footer : String)
      (button_text : String) (list_title : String)
      (options : List (String × String)) : Msg
  deriving DecidableEq, Repr

/-- The observable effect of one normally-returning handler invocation:
the variable store after the handler, the messages sent through
`send_message` in order, and the chronological list of assignments to
`self.status`. -/
structure HandlerResult where
  vars : Variables
  outputs : List Msg
  writes : List Status

/-- Modelled from the spec: the content-generation provider
(`Parser.parse_user_input`, external collaborator of spec section 6) is a
synchronous call returning JSON-shaped data that may be malformed.  One
response per calling handler; the natural-language prompts built by the
handlers are input to the provider only and are elided. -/
structure LLMEnv where
  competencies_response : Json
  question_response : Json
  score_response : Json
  resources_response : Json

/-- Python `f"{x}"` rendering of an `Optional[str]` variable. -/
def pyStrOpt : Option String → String
  | some s => s
  | none => "None"

/-- Left-to-right effectful map over a list, failing at the first raising
element, as a Python `for` loop over fallible element accesses does. -/
def exceptMapList (f : α → Except PyErr β) : List α → Except PyErr (List β)
  | [] => .ok []
  | a :: as => do
      let b ← f a
      let bs ← exceptMapList f as
      .ok (b :: bs)

/-- Python `x == current_question_id` where the right side is the attribute
value (`none` models Python `None`, which `json` renders as `null`). -/
def pyEqQid (x : Json) : Option Json → Bool
  | some j => Json.beq x j
  | none => Json.beq x .null

/-- The list comprehension of `on_enter_answer_input_logic`:
`[q for q in question_list if q["question_id"] == current_question_id]`;
a missing key raises out of the comprehension. -/
def pyFilterQ (cqid : Option Json) : List Json → Except PyErr (List Json)
  | [] => .ok []
  | q :: qs => do
      let qid ← q.getKey "question_id"
      let rest ← pyFilterQ cqid qs
      if pyEqQid qid cqid then .ok (q :: rest) else .ok rest

/-! ## State handlers (`on_enter_*` of `TeacherCompetencyFSM`)

Fallible handlers are written as `Except.map` of a data computation that
mirrors the Python statement order; on an exception the handler propagates
it (the partially-updated store of a crashed turn is not tracked, since the
engine never resumes a crashed session in the claims below). -/

/-- `standard_ask_again`: helper that re-prompts; defined in the flow but
never called by any handler. -/
def standard_ask_again (v : Variables) (message : Option String) : HandlerResult :=
  ⟨v,
   [Msg.text (message.getD
      "Sorry, I did not understand your question. Can you tell me again?")],
   [.WAIT_FOR_ME, .MOVE_FORWARD]⟩

/-- Modelled from the spec: `on_enter_language_selection` delegates to the
engine helper `_on_enter_select_language` (`AbstractFSM`, not under `src/`),
which prompts for a language choice and awaits user input. -/
def on_enter_language_selection (v : Variables) : HandlerResult :=
  ⟨v, [Msg.text "language_selection_prompt"], [.WAIT_FOR_ME, .WAIT_FOR_USER_INPUT]⟩

def on_enter_welcome_message_display (v : Variables) : HandlerResult :=
  ⟨v,
   [Msg.text "Welcome to the Teacher Competency Tool! Let's start your journey to becoming an even more amazing teacher! 😊"],
   [.WAIT_FOR_ME, .MOVE_FORWARD]⟩

def on_enter_collect_name (v : Variables) : HandlerResult :=
  ⟨v, [Msg.text "Please enter your name."], [.WAIT_FOR_ME, .WAIT_FOR_USER_INPUT]⟩

def on_enter_collect_name_logic (v : Variables) (current_input : String) : HandlerResult :=
  ⟨{ v with name := some current_input }, [], [.WAIT_FOR_ME, .MOVE_FORWARD]⟩

def on_enter_collect_subject (v : Variables) : HandlerResult :=
  ⟨v, [Msg.text "What subject do you teach?"], [.WAIT_FOR_ME, .WAIT_FOR_USER_INPUT]⟩

def on_enter_collect_subject_logic (v : Variables) (current_input : String) : HandlerResult :=
  ⟨{ v with subject := some current_input }, [], [.WAIT_FOR_ME, .MOVE_FORWARD]⟩

def on_enter_collect_grade (v : Variables) : HandlerResult :=
  ⟨v, [Msg.text "Which grade do you teach?"], [.WAIT_FOR_ME, .WAIT_FOR_USER_INPUT]⟩

def on_enter_collect_grade_logic (v : Variables) (current_input : String) : HandlerResult :=
  ⟨{ v with grade := some current_input }, [], [.WAIT_FOR_ME, .MOVE_FORWARD]⟩

def on_enter_confirmation (v : Variables) : HandlerResult :=
  ⟨v,
   [Msg.text ("Thank you, " ++ pyStrOpt v.name ++ "! You teach " ++ pyStrOpt v.subject
      ++ " for Grade " ++ pyStrOpt v.grade ++ ". Let's begin!")],
   [.WAIT_FOR_ME, .MOVE_FORWARD]⟩

def on_enter_home_screen (v : Variables) : HandlerResult :=
  ⟨v,
   [Msg.button "What would you like to do today?" "" ""
      [("competencies", "Learn about competencies"),
       ("assessment", "Take an assessment"),
       ("resources", "Resources & Tips"),
       ("help", "Help/Support")]],
   [.WAIT_FOR_ME, .WAIT_FOR_USER_INPUT]⟩

/-- `json.loads(self.current_input)`, then `options_list[0]["option_id"]`,
stored into `home_screen_option`; any of the three steps can raise and the
handler has no `try`/`except`. -/
def on_enter_home_screen_logic (v : Variables) (current_input : String) :
    Except PyErr HandlerResult :=
  Except.map
    (fun option_id =>
      ⟨{ v with home_screen_option := some option_id }, [], [.WAIT_FOR_ME, .MOVE_FORWARD]⟩)
    (do
      let options_list ← json_loads current_input
      let first ← options_list.index 0
      first.getKey "option_id")

/-- One block of the competencies message:
`*Category:* ...`, `*Description:* ...`, `*Examples:* ...` (the examples are
joined with `', '.join`, which needs a list of strings). -/
def formatCompetency (c : Json) : Except PyErr String := do
  let category ← c.getKey "category"
  let description ← c.getKey "description"
  let examples ← c.getKey "examples"
  let exampleList ← examples.asArr
  let exampleStrs ← exceptMapList Json.asStr exampleList
  .ok ("*Category:* " ++ category.pyStr ++ "\n*Description:* " ++ description.pyStr
      ++ "\n*Examples:* " ++ String.intercalate ", " exampleStrs)

/-- Prefix the first sent message with the intro line (the Python loop sends
`message + block` on the first iteration and resets `message` to `""`). -/
def prefixFirst (p : String) : List String → List String
  | [] => []
  | b :: bs => (p ++ b) :: bs

/-- `result['competencies']` is iterated and one message is sent per
competency; a malformed response raises before anything is sent. -/
def on_enter_learn_competencies (v : Variables) (resp : Json) :
    Except PyErr HandlerResult :=
  Except.map
    (fun blocks =>
      ⟨v,
       (prefixFirst
          ("Let's learn about the essential competencies for teaching grade *"
            ++ pyStrOpt v.grade ++ "* *" ++ pyStrOpt v.subject ++ "*.\n")
          blocks).map Msg.text,
       [.WAIT_FOR_ME, .MOVE_FORWARD]⟩)
    (do
      let competencies ← resp.getKey "competencies"
      let competencyList ← competencies.asArr
      exceptMapList formatCompetency competencyList)

/-- `on_enter_assessment`: resets the four quiz variables and announces the
quiz. -/
def on_enter_assessment (v : Variables) : HandlerResult :=
  ⟨{ v with question_count := 0, user_input_param := [], question_list := none,
            current_question_id := none },
   [Msg.text ("Ready for a quick quiz on " ++ pyStrOpt v.subject ++ "? Let's go! 😊")],
   [.WAIT_FOR_ME, .MOVE_FORWARD]⟩

/-- `get_question_from_openai`: reads `result['result']` (raising `KeyError`
on a malformed response) and stores it into `question_list`.  The
`try`/`except` of the source only wraps the `setattr`, which cannot raise
(pydantic does not validate assignment), so the fallback branch is
unreachable. -/
def get_question_from_openai (v : Variables) (resp : Json) :
    Except PyErr (Json × Variables) := do
  let result ← resp.getKey "result"
  .ok (result, { v with question_list := some result })

/-- `on_enter_show_question`: sets `WAIT_FOR_CALLBACK` on entry, generates
the question pool when `question_list` is `None`, indexes the pool with
`question_count` when the counter is non-zero, sends the option list and
finishes with `MOVE_FORWARD`.  The local `options` is unbound (Python
`NameError` at `options.items()`) when neither branch runs; `question` and
`question_id` start as `""`. -/
def on_enter_show_question (v : Variables) (resp : Json) :
    Except PyErr HandlerResult :=
  Except.map
    (fun out =>
      match out with
      | (question, question_id, options_list, v1) =>
        ⟨{ v1 with current_question_id := some question_id },
         [Msg.optionList question "" "" "Question Answer" "Question Answer" options_list],
         [.WAIT_FOR_CALLBACK, .MOVE_FORWARD]⟩)
    (do
      let st0 : String × Json × Option Json × Variables := ("", .str "", none, v)
      let st1 ←
        if v.question_list.isNone then do
          let gq ← get_question_from_openai v resp
          match gq with
          | (get_question, v1) => do
            let q0 ← get_question.index 0
            let questionJ ← q0.getKey "question"
            let questionS ← questionJ.asStr
            let question_id ← q0.getKey "question_id"
            let options ← q0.getKey "options"
            (.ok (("Question 1: " ++ questionS, question_id, some options, v1) :
              String × Json × Option Json × Variables))
        else .ok st0
      let st2 ←
        match st1 with
        | (question, question_id, options, v1) =>
          if v1.question_count ≠ 0 then do
            let next_question_num := v1.question_count
            let ql ←
              match v1.question_list with
              | some j => (.ok j : Except PyErr Json)
              | none => .error .typeError
            let qn ← ql.index next_question_num
            let questionJ ← qn.getKey "question"
            let questionS ← questionJ.asStr
            let question_id ← qn.getKey "question_id"
            let options ← qn.getKey "options"
            (.ok (("Question " ++ toString (next_question_num + 1) ++ ": " ++ questionS,
              question_id, some options, v1) : String × Json × Option Json × Variables))
          else .ok (question, question_id, options, v1)
      match st2 with
      | (question, question_id, options, v1) => do
        let optionsJ ←
          match options with
          | some o => (.ok o : Except PyErr Json)
          | none => .error .nameError
        let kvs ←
          match optionsJ with
          | .obj kvs => (.ok kvs : Except PyErr (List (String × Json)))
          | _ => .error .typeError
        let options_list ← exceptMapList
          (fun kv => do
            let s ← kv.2.asStr
            (.ok (kv.1, s) : Except PyErr (String × String)))
          kvs
        .ok (question, question_id, options_list, v1))

def on_enter_question_answer_input (v : Variables) : HandlerResult :=
  ⟨{ v with question_count := v.question_count + 1 }, [], [.WAIT_FOR_ME, .WAIT_FOR_USER_INPUT]⟩

/-- `on_enter_answer_input_logic`: filters `question_list` by the stored
`current_question_id`, builds the answer record from the first match and the
user's input, and appends it to `user_input_param`. -/
def on_enter_answer_input_logic (v : Variables) (current_input : String) :
    Except PyErr HandlerResult :=
  Except.map
    (fun record =>
      ⟨{ v with user_input_param := v.user_input_param ++ [record] }, [],
       [.WAIT_FOR_ME, .MOVE_FORWARD]⟩)
    (do
      let question_list ←
        match v.question_list with
        | some j => j.asArr
        | none => .error .typeError
      let current_ques_param ← pyFilterQ v.current_question_id question_list
      let first ←
        match current_ques_param with
        | q :: _ => (.ok q : Except PyErr Json)
        | [] => .error .indexError
      let question ← first.getKey "question"
      let options ← first.getKey "options"
      let answer ← first.getKey "answer"
      .ok (Json.obj
        [("question_id", (v.current_question_id.getD .null)),
         ("question", question),
         ("options", options),
         ("answer", answer),
         ("selected_option", .str current_input)]))

def on_enter_waiting_message (v : Variables) : HandlerResult :=
  ⟨v, [Msg.text "Please wait while we are calculating your score"],
   [.WAIT_FOR_ME, .MOVE_FORWARD]⟩

/-- `on_enter_calculate_score`: `message = result['result']` must be a
string for `TextMessage(body=message)` to validate. -/
def on_enter_calculate_score (v : Variables) (resp : Json) :
    Except PyErr HandlerResult :=
  Except.map
    (fun message => ⟨v, [Msg.text message], [.WAIT_FOR_ME, .MOVE_FORWARD]⟩)
    (do
      let result ← resp.getKey "result"
      result.asStr)

/-- `on_enter_thankyou_message`: the same quiz-variable reset as
`on_enter_assessment`, then a thank-you text. -/
def on_enter_thankyou_message (v : Variables) : HandlerResult :=
  ⟨{ v with question_count := 0, user_input_param := [], question_list := none,
            current_question_id := none },
   [Msg.text "Thank you for attempting MX Quiz!"],
   [.WAIT_FOR_ME, .MOVE_FORWARD]⟩

/-- One block of the resources message. -/
def formatResource (r : Json) : Except PyErr String := do
  let title ← r.getKey "title"
  let author ← r.getKey "author"
  let description ← r.getKey "description"
  let link ← r.getKey "link"
  .ok ("**Title:** " ++ title.pyStr ++ "\n**Author:** " ++ author.pyStr
      ++ "\n**Description:** " ++ description.pyStr ++ "\n**Link:** " ++ link.pyStr)

/-- `result['resources']` is iterated and one message is sent per resource. -/
def on_enter_resources_tips (v : Variables) (resp : Json) :
    Except PyErr HandlerResult :=
  Except.map
    (fun blocks =>
      ⟨v,
       (prefixFirst "Here are some resources and tips for you.\n" blocks).map Msg.text,
       [.WAIT_FOR_ME, .MOVE_FORWARD]⟩)
    (do
      let resources ← resp.getKey "resources"
      let resourceList ← resources.asArr
      exceptMapList formatResource resourceList)

def on_enter_help_support (v : Variables) : HandlerResult :=
  ⟨v, [Msg.text "How can we assist you today? Please describe your issue."],
   [.WAIT_FOR_ME, .WAIT_FOR_USER_INPUT]⟩

def on_enter_end (v : Variables) : HandlerResult :=
  ⟨v, [Msg.text "Thank you for using the MX Teacher Competency Tool. Have a great day!"],
   [.WAIT_FOR_ME, .MOVE_FORWARD]⟩

/-! ## Engine: dispatch, run loop, resumption

Modelled from the spec (sections 4.1-4.3); the engine (`AbstractFSM` of
`jb_manager_bot`) is part of the repository but not under `src/`. -/

/-- Engine-level failures: missing handler and no-matching-transition are
fatal configuration errors (spec section 7); a Python exception raised by a
handler propagates uncaught out of the run loop (spec section 4.1). -/
inductive EngErr where
  | noHandler (s : St) : EngErr
  | noMatchingTransition (s : St) : EngErr
  | pyErr (e : PyErr) : EngErr
  | badStatus : EngErr
  | outOfFuel : EngErr
  deriving DecidableEq, Repr

/-- Modelled from the spec: handler dispatch by state name (spec section
4.3).  `zero` is the engine's initial bookkeeping state and has no handler
in the flow file.  Handlers that call the generation provider receive the
provider response for their request from the environment. -/
def runHandler (s : St) (v : Variables) (current_input : String) (env : LLMEnv) :
    Except EngErr HandlerResult :=
  match s with
  | .zero => .error (.noHandler .zero)
  | .language_selection => .ok (on_enter_language_selection v)
  | .welcome_message_display => .ok (on_enter_welcome_message_display v)
  | .collect_name => .ok (on_enter_collect_name v)
  | .collect_name_logic => .ok (on_enter_collect_name_logic v current_input)
  | .collect_subject => .ok (on_enter_collect_subject v)
  | .collect_subject_logic => .ok (on_enter_collect_subject_logic v current_input)
  | .collect_grade => .ok (on_enter_collect_grade v)
  | .collect_grade_logic => .ok (on_enter_collect_grade_logic v current_input)
  | .confirmation => .ok (on_enter_confirmation v)
  | .home_screen => .ok (on_enter_home_screen v)
  | .home_screen_logic => (on_enter_home_screen_logic v current_input).mapError .pyErr
  | .learn_competencies =>
      (on_enter_learn_competencies v env.competencies_response).mapError .pyErr
  | .assessment => .ok (on_enter_assessment v)
  | .show_question => (on_enter_show_question v env.question_response).mapError .pyErr
  | .question_answer_input => .ok (on_enter_question_answer_input v)
  | .answer_input_logic => (on_enter_answer_input_logic v current_input).mapError .pyErr
  | .waiting_message => .ok (on_enter_waiting_message v)
  | .calculate_score => (on_enter_calculate_score v env.score_response).mapError .pyErr
  | .thankyou_message => .ok (on_enter_thankyou_message v)
  | .resources_tips => (on_enter_resources_tips v env.resources_response).mapError .pyErr
  | .help_support => .ok (on_enter_help_support v)
  | .end_state => .ok (on_enter_end v)

/-- How one `advance` call ends: paused awaiting external input or a
callback, or finished because a state with no outgoing `next` edge was
reached. -/
inductive Outcome where
  | paused (st : Status) : Outcome
  | finished : Outcome
  deriving DecidableEq, Repr

/-- A session: current state plus variable store (spec section 3). -/
structure Session where
  state : St
  vars : Variables

/-- The observable result of one `advance` call: the outcome, the session
as left, all messages emitted, and the list of states entered (with the
store at each entry). -/
structure ChainOut where
  outcome : Outcome
  session : Session
  outputs : List Msg
  trace : List (St × Variables)

/-- Modelled from the spec: the ADVANCE chain of the run loop (spec section
4.1): enter the state, run its handler, and while the final status is
`MOVE_FORWARD` select the next edge and re-enter without returning to the
caller; pause on `WAIT_FOR_USER_INPUT`/`WAIT_FOR_CALLBACK`; finish when a
state has no outgoing `next` edge.  Fuel bounds the chain length. -/
def runChain (env : LLMEnv) : Nat → St → Variables → String → Except EngErr ChainOut
  | 0, _, _, _ => .error .outOfFuel
  | fuel + 1, s, v, current_input =>
      match runHandler s v current_input env with
      | .error e => .error e
      | .ok r =>
          match r.writes.getLast? with
          | some .MOVE_FORWARD =>
              match nextEdges s with
              | [] => .ok ⟨.finished, ⟨s, r.vars⟩, r.outputs, [(s, v)]⟩
              | _ :: _ =>
                  match selectNext r.vars s with
                  | none => .error (.noMatchingTransition s)
                  | some d =>
                      match runChain env fuel d r.vars current_input with
                      | .error e => .error e
                      | .ok c =>
                          .ok ⟨c.outcome, c.session, r.outputs ++ c.outputs,
                               (s, v) :: c.trace⟩
          | some .WAIT_FOR_USER_INPUT =>
              .ok ⟨.paused .WAIT_FOR_USER_INPUT, ⟨s, r.vars⟩, r.outputs, [(s, v)]⟩
          | some .WAIT_FOR_CALLBACK =>
              .ok ⟨.paused .WAIT_FOR_CALLBACK, ⟨s, r.vars⟩, r.outputs, [(s, v)]⟩
          | _ => .error .badStatus

/-- Modelled from the spec: resuming a paused session with an external
input (spec sections 4.1 and 8): the input becomes `current_input`, the
`next` trigger fires from the paused state, and the ADVANCE chain runs from
the selected destination.  A paused state with no outgoing `next` edge is
terminal. -/
def advance (env : LLMEnv) (fuel : Nat) (sess : Session) (externalInput : String) :
    Except EngErr ChainOut :=
  match nextEdges sess.state with
  | [] => .ok ⟨.finished, sess, [], []⟩
  | _ :: _ =>
      match selectNext sess.vars sess.state with
      | none => .error (.noMatchingTransition sess.state)
      | some d => runChain env fuel d sess.vars externalInput

/-- Feed a list of external inputs to a paused session, one `advance` call
per input, concatenating the entry traces. -/
def feedAll (env : LLMEnv) (fuel : Nat) :
    Session → List String → Except EngErr (Session × List (St × Variables))
  | sess, [] => .ok (sess, [])
  | sess, i :: is => do
      let c ← advance env fuel sess i
      let (s', tr) ← feedAll env fuel c.session is
      .ok (s', c.trace ++ tr)

/-- The quiz sub-flow run: enter `assessment` (the chain pauses at
`question_answer_input`), then feed the user's answers.  Returns the final
session and the full list of state entries. -/
def quizRun (env : LLMEnv) (fuel : Nat) (v : Variables) (entryInput : String)
    (answers : List String) : Except EngErr (Session × List (St × Variables)) := do
  let c ← runChain env fuel .assessment v entryInput
  let (s', tr) ← feedAll env fuel c.session answers
  .ok (s', c.trace ++ tr)

/-! ## Concrete payloads, environments, and specification-side helpers

(`on_enter_preparing_question` exists in the source but `preparing_question`
is not in the `states` list, so it is unreachable dead code and not
modelled.) -/

/-- The selection payload `[{"option_id":"assessment"}]` as delivered by the
channel. -/
def selAssessment : String := "[\x7b\"option_id\":\"assessment\"\x7d]"

/-- A provider environment whose responses are never consulted. -/
def env0 : LLMEnv := ⟨.null, .null, .null, .null⟩

/-- A question-generation response missing the `result` key. -/
def envMissingResult : LLMEnv := ⟨.null, .obj [], .null, .null⟩

/-- A competencies response missing the `competencies` key. -/
def envMissingCompetencies : LLMEnv := ⟨.obj [("result", .null)], .null, .null, .null⟩

/-- A well-formed resources response with an empty resource list. -/
def envEmptyResources : LLMEnv := ⟨.null, .null, .null, .obj [("resources", .arr [])]⟩

/-- A single well-formed generated question. -/
def qJ : Json :=
  .obj [("question_id", .num 1), ("question", .str "Q1?"),
        ("options", .obj [("A", .str "yes"), ("B", .str "no")]), ("answer", .str "A")]

/-- A question-generation response carrying exactly `qJ`. -/
def envQ1 : LLMEnv := ⟨.null, .obj [("result", .arr [qJ])], .null, .null⟩

/-- The edge that the four home-screen guards select for a given store, as a
function of the snapshot: the unique matching guarded edge when the stored
option is one of the four option ids, and no edge otherwise. -/
def homeChoice (v : Variables) : Option St :=
  if is_learn_competencies_selected v then some .learn_competencies
  else if is_assessment_selected v then some .assessment
  else if is_resources_tips_selected v then some .resources_tips
  else if is_help_support_selected v then some .help_support
  else none

/-- The chronological status writes of each handler on a normally-returning
invocation (they are constant per handler; `zero` has no handler). -/
def normalWrites : St → List Status
  | .zero => []
  | .show_question => [.WAIT_FOR_CALLBACK, .MOVE_FORWARD]
  | .language_selection => [.WAIT_FOR_ME, .WAIT_FOR_USER_INPUT]
  | .collect_name => [.WAIT_FOR_ME, .WAIT_FOR_USER_INPUT]
  | .collect_subject => [.WAIT_FOR_ME, .WAIT_FOR_USER_INPUT]
  | .collect_grade => [.WAIT_FOR_ME, .WAIT_FOR_USER_INPUT]
  | .home_screen => [.WAIT_FOR_ME, .WAIT_FOR_USER_INPUT]
  | .question_answer_input => [.WAIT_FOR_ME, .WAIT_FOR_USER_INPUT]
  | .help_support => [.WAIT_FOR_ME, .WAIT_FOR_USER_INPUT]
  | _ => [.WAIT_FOR_ME, .MOVE_FORWARD]

/-! ## Well-formed generated question pools

The quiz-loop theorems quantify over provider responses of the JSON shape
that `get_question_from_openai` requests (a `result` list of question
objects with `question_id`, `question`, `options`, `answer`). -/

/-- One generated question of the requested shape. -/
structure QuizQ where
  question_id : Int
  question : String
  options : List (String × String)
  answer : Json

/-- The JSON object of a generated question, with the field order of the
requested format. -/
def QuizQ.toJson (q : QuizQ) : Json :=
  .obj [("question_id", .num q.question_id), ("question", .str q.question),
        ("options", .obj (q.options.map (fun p => (p.1, .str p.2)))),
        ("answer", q.answer)]

/-- The generated pool as the JSON list stored into `question_list`. -/
def qListJson (qs : List QuizQ) : Json := .arr (qs.map QuizQ.toJson)

/-- A provider environment returning the pool `qs` for question generation
and a well-formed score message. -/
def quizEnv (qs : List QuizQ) (scoreMsg : String) : LLMEnv :=
  ⟨.null, .obj [("result", qListJson qs)], .obj [("result", .str scoreMsg)], .null⟩

/-- The quiz-variable reset performed by `on_enter_assessment` and
`on_enter_thankyou_message`. -/
def resetVars (v : Variables) : Variables :=
  { v with question_count := 0, user_input_param := [], question_list := none,
           current_question_id := none }

/-- The store while the quiz loop is paused at `question_answer_input`:
`c` questions shown, pool materialized, current question id stored, and the
answer log so far. -/
def loopVars (v : Variables) (qs : List QuizQ) (c : Nat) (acc : List Json) (cq : Json) :
    Variables :=
  { v with question_count := c, question_list := some (qListJson qs),
           current_question_id := some cq, user_input_param := acc }

/-- A five-question pool used to instantiate the quiz-loop theorems. -/
def qs5 : List QuizQ :=
  [⟨1, "Q1?", [("A", "yes"), ("B", "no")], .str "A"⟩,
   ⟨2, "Q2?", [("A", "yes"), ("B", "no")], .str "B"⟩,
   ⟨3, "Q3?", [("A", "yes"), ("B", "no")], .str "A"⟩,
   ⟨4, "Q4?", [("A", "yes"), ("B", "no")], .str "B"⟩,
   ⟨5, "Q5?", [("A", "yes"), ("B", "no")], .str "A"⟩]

/-- Five user answers for the instantiation. -/
def answers5 : List String := ["A", "B", "A", "B", "A"]

/-! ## Helper lemmas -/

theorem except_map_ok {α β : Type} {f : α → β} {x : Except PyErr α} {r : β}
    (h : Except.map f x = .ok r) : ∃ a, x = .ok a ∧ r = f a := by
  cases x with
  | error e => simp [Except.map] at h
  | ok a =>
      simp only [Except.map] at h
      injection h with h
      exact ⟨a, rfl, h.symm⟩

theorem except_mapError_ok {ε ε' α : Type} {g : ε → ε'} {x : Except ε α} {r : α}
    (h : Except.mapError g x = .ok r) : x = .ok r := by
  cases x with
  | error e => simp [Except.mapError] at h
  | ok a => simpa [Except.mapError] using h

/-- The four guarded edges leaving `home_screen_logic`. -/
theorem nextEdges_home_screen_logic :
    nextEdges .home_screen_logic =
      [{ source := .home_screen_logic, dest := .learn_competencies, trigger := "next",
         conditions := some .is_learn_competencies_selected },
       { source := .home_screen_logic, dest := .assessment, trigger := "next",
         conditions := some .is_assessment_selected },
       { source := .home_screen_logic, dest := .resources_tips, trigger := "next",
         conditions := some .is_resources_tips_selected },
       { source := .home_screen_logic, dest := .help_support, trigger := "next",
         conditions := some .is_help_support_selected }] := rfl

/-- Edge selection at `home_screen_logic` is the pure function `homeChoice`
of the store snapshot. -/
theorem selectNext_home_screen_logic (v : Variables) :
    selectNext v .home_screen_logic = homeChoice v := by
  cases h1 : is_learn_competencies_selected v <;>
    cases h2 : is_assessment_selected v <;>
      cases h3 : is_resources_tips_selected v <;>
        cases h4 : is_help_support_selected v <;>
          simp [selectNext, nextEdges_home_screen_logic, List.find?, edgeTaken, evalGuard,
            homeChoice, h1, h2, h3, h4]

/-- The two edges leaving `answer_input_logic`: the guarded loop edge first,
then the unconditional exit edge. -/
theorem nextEdges_answer_input_logic :
    nextEdges .answer_input_logic =
      [{ source := .answer_input_logic, dest := .show_question, trigger := "next",
         conditions := some .is_send_another_question },
       { source := .answer_input_logic, dest := .waiting_message, trigger := "next",
         conditions := none }] := rfl

/-- Edge selection at `answer_input_logic`: loop back to `show_question`
while the guard holds, otherwise exit to `waiting_message`. -/
theorem selectNext_answer_input_logic (v : Variables) :
    selectNext v .answer_input_logic =
      some (if is_send_another_question v then .show_question else .waiting_message) := by
  cases hg : is_send_another_question v <;>
    simp [selectNext, nextEdges_answer_input_logic, List.find?, edgeTaken, evalGuard, hg]

/-- At most one of the four home-screen guards holds on any snapshot. -/
theorem home_guards_at_most_one (v : Variables) :
    ([is_learn_competencies_selected v, is_assessment_selected v,
      is_resources_tips_selected v, is_help_support_selected v].count true) ≤ 1 := by
  cases hso : v.home_screen_option with
  | none =>
      simp [is_learn_competencies_selected, is_assessment_selected,
        is_resources_tips_selected, is_help_support_selected, hso, List.count]
  | some j =>
      cases j with
      | str s =>
          by_cases h1 : s = "competencies" <;> by_cases h2 : s = "assessment" <;>
            by_cases h3 : s = "resources" <;> by_cases h4 : s = "help" <;>
              simp_all [is_learn_competencies_selected, is_assessment_selected,
                is_resources_tips_selected, is_help_support_selected, Json.beq, List.count]
      | null =>
          simp [is_learn_competencies_selected, is_assessment_selected,
            is_resources_tips_selected, is_help_support_selected, hso, Json.beq, List.count]
      | bool b =>
          simp [is_learn_competencies_selected, is_assessment_selected,
            is_resources_tips_selected, is_help_support_selected, hso, Json.beq, List.count]
      | num n =>
          simp [is_learn_competencies_selected, is_assessment_selected,
            is_resources_tips_selected, is_help_support_selected, hso, Json.beq, List.count]
      | arr xs =>
          simp [is_learn_competencies_selected, is_assessment_selected,
            is_resources_tips_selected, is_help_support_selected, hso, Json.beq, List.count]
      | obj fs =>
          simp [is_learn_competencies_selected, is_assessment_selected,
            is_resources_tips_selected, is_help_support_selected, hso, Json.beq, List.count]

/-! ## Claims -/

/-- C2: at `home_screen_logic` with the selection payload
`[{"option_id":"assessment"}]`, the handler sets `home_screen_option` to
`"assessment"` and the subsequent `next` transition selects the edge to
`assessment`; the guards of the edges to `learn_competencies`,
`resources_tips` and `help_support` are all false on the resulting store. -/
theorem C2_assessment_branch_selected (v : Variables) (env : LLMEnv) :
    runHandler .home_screen_logic v selAssessment env =
      .ok ⟨{ v with home_screen_option := some (.str "assessment") }, [],
           [.WAIT_FOR_ME, .MOVE_FORWARD]⟩
    ∧ selectNext { v with home_screen_option := some (.str "assessment") }
        .home_screen_logic = some .assessment
    ∧ is_learn_competencies_selected
        { v with home_screen_option := some (.str "assessment") } = false
    ∧ is_resources_tips_selected
        { v with home_screen_option := some (.str "assessment") } = false
    ∧ is_help_support_selected
        { v with home_screen_option := some (.str "assessment") } = false :=
  ⟨rfl, rfl, rfl, rfl, rfl⟩

/-- C5: resuming a session paused at `collect_name` with external input
`"Asha"` stores `name = "Asha"`, chains through `collect_name_logic` into
`collect_subject` within a single `advance` call, emits the subject prompt,
and returns control paused with `WAIT_FOR_USER_INPUT`. -/
theorem C5_collect_name_advance_chain (env : LLMEnv) (v : Variables) :
    advance env 6 ⟨.collect_name, v⟩ "Asha" =
      .ok ⟨.paused .WAIT_FOR_USER_INPUT,
           ⟨.collect_subject, { v with name := some "Asha" }⟩,
           [Msg.text "What subject do you teach?"],
           [(.collect_name_logic, v),
            (.collect_subject, { v with name := some "Asha" })]⟩ := rfl

/-- C9: `on_enter_assessment` resets exactly the four quiz variables
(`question_count` to 0, `user_input_param` to `[]`, `question_list` and
`current_question_id` to `None`) and leaves the eight other fields
unchanged; `on_enter_thankyou_message` performs the identical reset. -/
theorem C9_quiz_reset_frame (v : Variables) :
    ((on_enter_assessment v).vars.question_count = 0
      ∧ (on_enter_assessment v).vars.user_input_param = []
      ∧ (on_enter_assessment v).vars.question_list = none
      ∧ (on_enter_assessment v).vars.current_question_id = none
      ∧ (on_enter_assessment v).vars.name = v.name
      ∧ (on_enter_assessment v).vars.language = v.language
      ∧ (on_enter_assessment v).vars.subject = v.subject
      ∧ (on_enter_assessment v).vars.grade = v.grade
      ∧ (on_enter_assessment v).vars.competency_domain = v.competency_domain
      ∧ (on_enter_assessment v).vars.quiz_score = v.quiz_score
      ∧ (on_enter_assessment v).vars.home_screen_option = v.home_screen_option
      ∧ (on_enter_assessment v).vars.total_num_question = v.total_num_question)
    ∧ (on_enter_thankyou_message v).vars = (on_enter_assessment v).vars :=
  ⟨⟨rfl, rfl, rfl, rfl, rfl, rfl, rfl, rfl, rfl, rfl, rfl, rfl⟩, rfl⟩

/-- C8 (failing inputs): at `home_screen_logic`, free text that is not JSON
raises `json.JSONDecodeError` and the empty selection list `[]` raises
`IndexError`; neither is caught, so the exception escapes the `advance`
run loop instead of re-prompting. -/
theorem C8_malformed_selection_crashes :
    advance env0 6 ⟨.home_screen, initVars⟩ "hello" = .error (.pyErr .jsonDecodeError)
    ∧ advance env0 6 ⟨.home_screen, initVars⟩ "[]" = .error (.pyErr .indexError)
    ∧ runHandler .home_screen_logic initVars "hello" env0 =
        .error (.pyErr .jsonDecodeError) :=
  ⟨rfl, rfl, rfl⟩

/-- C6 (failing inputs): a generation response missing the `result` key
makes `get_question_from_openai` raise `KeyError('result')` inside
`on_enter_show_question`, and the exception escapes the run loop entered at
`assessment`; a response missing the `competencies` key does the same in
`on_enter_learn_competencies`. -/
theorem C6_malformed_response_crashes :
    runHandler .show_question initVars "x" envMissingResult =
      .error (.pyErr (.keyError "result"))
    ∧ runChain envMissingResult 6 .assessment initVars "x" =
        .error (.pyErr (.keyError "result"))
    ∧ runHandler .learn_competencies initVars "x" envMissingCompetencies =
        .error (.pyErr (.keyError "competencies")) :=
  ⟨rfl, rfl, rfl⟩

/-- C4 (counterexample): a snapshot reached by selecting an option id that
is not one of the four home-screen ids (payload
`[{"option_id":"zzz"}]` is accepted by the handler) makes all four guards
false, and the `next` selection at `home_screen_logic` selects zero edges —
refuting "exactly one edge is selected" for arbitrary snapshots. -/
theorem C4_zero_edges_counterexample :
    on_enter_home_screen_logic initVars "[\x7b\"option_id\":\"zzz\"\x7d]" =
      .ok ⟨{ initVars with home_screen_option := some (.str "zzz") }, [],
           [.WAIT_FOR_ME, .MOVE_FORWARD]⟩
    ∧ selectNext { initVars with home_screen_option := some (.str "zzz") }
        .home_screen_logic = none :=
  ⟨rfl, rfl⟩

/-- C4 (amended): the four guards of `('home_screen_logic', 'next')` are
pure functions of the store (by construction of the embedding); on every
snapshot at most one of them is true, and edge selection is the
deterministic — hence idempotent — function `homeChoice` of the snapshot,
which selects the unique matching edge when `home_screen_option` is one of
the four option ids and no edge otherwise. -/
theorem C4_guarded_selection_deterministic (v : Variables) :
    ([is_learn_competencies_selected v, is_assessment_selected v,
      is_resources_tips_selected v, is_help_support_selected v].count true ≤ 1)
    ∧ selectNext v .home_screen_logic = homeChoice v :=
  ⟨home_guards_at_most_one v, selectNext_home_screen_logic v⟩

/-- C7 (counterexample): `resources_tips` is reachable (selected when the
stored option is `"resources"`), its handler finishes with `MOVE_FORWARD`
(ADVANCE), yet it has zero outgoing `next` edges — refuting "every state
whose handler finishes with ADVANCE has a selectable outgoing transition". -/
theorem C7_resources_tips_dead_end :
    runHandler .resources_tips initVars "x" envEmptyResources =
      .ok ⟨initVars, [], [.WAIT_FOR_ME, .MOVE_FORWARD]⟩
    ∧ nextEdges .resources_tips = []
    ∧ selectNext { initVars with home_screen_option := some (.str "resources") }
        .home_screen_logic = some .resources_tips :=
  ⟨rfl, rfl, rfl⟩

/-- C7 (amended): every ADVANCE-finishing state other than
`home_screen_logic`, `resources_tips` and `end` always has a selectable
outgoing `next` edge; at `home_screen_logic` an edge is selected exactly
when `homeChoice` yields one (i.e. the stored option is one of the four
ids); `resources_tips` and `end` have zero outgoing `next` edges and
therefore end the run loop despite finishing with ADVANCE. -/
theorem C7_advance_states_have_next_edges (v : Variables) :
    selectNext v .welcome_message_display = some .collect_name
    ∧ selectNext v .collect_name_logic = some .collect_subject
    ∧ selectNext v .collect_subject_logic = some .collect_grade
    ∧ selectNext v .collect_grade_logic = some .confirmation
    ∧ selectNext v .confirmation = some .home_screen
    ∧ selectNext v .learn_competencies = some .home_screen
    ∧ selectNext v .assessment = some .show_question
    ∧ selectNext v .show_question = some .question_answer_input
    ∧ selectNext v .answer_input_logic =
        some (if is_send_another_question v then .show_question else .waiting_message)
    ∧ selectNext v .waiting_message = some .calculate_score
    ∧ selectNext v .calculate_score = some .thankyou_message
    ∧ selectNext v .thankyou_message = some .home_screen
    ∧ selectNext v .home_screen_logic = homeChoice v
    ∧ nextEdges .resources_tips = []
    ∧ nextEdges .end_state = [] := by
  refine ⟨rfl, rfl, rfl, rfl, rfl, rfl, rfl, rfl, ?_, rfl, rfl, rfl, ?_, rfl, rfl⟩
  · exact selectNext_answer_input_logic v
  · exact selectNext_home_screen_logic v

/-- C3 (counterexample): `on_enter_show_question` on a normal invocation
writes the terminal status `WAIT_FOR_CALLBACK` at entry and the terminal
status `MOVE_FORWARD` at return — two terminal status writes in a single
invocation, refuting "no handler sets more than one terminal status during
a single invocation". -/
theorem C3_show_question_two_terminal_writes :
    runHandler .show_question initVars "x" envQ1 =
      .ok ⟨{ initVars with question_list := some (.arr [qJ]),
                           current_question_id := some (.num 1) },
           [Msg.optionList "Question 1: Q1?" "" "" "Question Answer" "Question Answer"
              [("A", "yes"), ("B", "no")]],
           [.WAIT_FOR_CALLBACK, .MOVE_FORWARD]⟩
    ∧ [Status.WAIT_FOR_CALLBACK, Status.MOVE_FORWARD].countP Status.isTerminal = 2 :=
  ⟨rfl, by decide⟩

/-- C3 (amended): every handler, on every normally-returning invocation,
produces the per-state constant status-write sequence `normalWrites`, whose
final write is always one of the three terminal statuses (never
`WAIT_FOR_ME`); the sequence contains exactly one terminal write for every
handler except `on_enter_show_question`, which transiently writes the
terminal `WAIT_FOR_CALLBACK` before finishing with `MOVE_FORWARD` (two
terminal writes). -/
theorem C3_handler_status_protocol (s : St) (v : Variables) (i : String) (env : LLMEnv)
    (r : HandlerResult) (h : runHandler s v i env = .ok r) :
    r.writes = normalWrites s
    ∧ (∃ last, (normalWrites s).getLast? = some last ∧ last.isTerminal = true)
    ∧ (normalWrites s).countP Status.isTerminal =
        (if s = .show_question then 2 else 1) := by
  cases s with
  | zero => simp [runHandler] at h
  | language_selection =>
      simp only [runHandler, Except.ok.injEq] at h
      subst h; exact ⟨rfl, ⟨.WAIT_FOR_USER_INPUT, rfl, rfl⟩, by decide⟩
  | welcome_message_display =>
      simp only [runHandler, Except.ok.injEq] at h
      subst h; exact ⟨rfl, ⟨.MOVE_FORWARD, rfl, rfl⟩, by decide⟩
  | collect_name =>
      simp only [runHandler, Except.ok.injEq] at h
      subst h; exact ⟨rfl, ⟨.WAIT_FOR_USER_INPUT, rfl, rfl⟩, by decide⟩
  | collect_name_logic =>
      simp only [runHandler, Except.ok.injEq] at h
      subst h; exact ⟨rfl, ⟨.MOVE_FORWARD, rfl, rfl⟩, by decide⟩
  | collect_subject =>
      simp only [runHandler, Except.ok.injEq] at h
      subst h; exact ⟨rfl, ⟨.WAIT_FOR_USER_INPUT, rfl, rfl⟩, by decide⟩
  | collect_subject_logic =>
      simp only [runHandler, Except.ok.injEq] at h
      subst h; exact ⟨rfl, ⟨.MOVE_FORWARD, rfl, rfl⟩, by decide⟩
  | collect_grade =>
      simp only [runHandler, Except.ok.injEq] at h
      subst h; exact ⟨rfl, ⟨.WAIT_FOR_USER_INPUT, rfl, rfl⟩, by decide⟩
  | collect_grade_logic =>
      simp only [runHandler, Except.ok.injEq] at h
      subst h; exact ⟨rfl, ⟨.MOVE_FORWARD, rfl, rfl⟩, by decide⟩
  | confirmation =>
      simp only [runHandler, Except.ok.injEq] at h
      subst h; exact ⟨rfl, ⟨.MOVE_FORWARD, rfl, rfl⟩, by decide⟩
  | home_screen =>
      simp only [runHandler, Except.ok.injEq] at h
      subst h; exact ⟨rfl, ⟨.WAIT_FOR_USER_INPUT, rfl, rfl⟩, by decide⟩
  | home_screen_logic =>
      simp only [runHandler, on_enter_home_screen_logic] at h
      obtain ⟨a, _, rfl⟩ := except_map_ok (except_mapError_ok h)
      exact ⟨rfl, ⟨.MOVE_FORWARD, rfl, rfl⟩, by decide⟩
  | learn_competencies =>
      simp only [runHandler, on_enter_learn_competencies] at h
      obtain ⟨a, _, rfl⟩ := except_map_ok (except_mapError_ok h)
      exact ⟨rfl, ⟨.MOVE_FORWARD, rfl, rfl⟩, by decide⟩
  | assessment =>
      simp only [runHandler, Except.ok.injEq] at h
      subst h; exact ⟨rfl, ⟨.MOVE_FORWARD, rfl, rfl⟩, by decide⟩
  | show_question =>
      simp only [runHandler, on_enter_show_question] at h
      obtain ⟨a, _, rfl⟩ := except_map_ok (except_mapError_ok h)
      obtain ⟨q, qid, ol, v1⟩ := a
      exact ⟨rfl, ⟨.MOVE_FORWARD, rfl, rfl⟩, by decide⟩
  | question_answer_input =>
      simp only [runHandler, Except.ok.injEq] at h
      subst h; exact ⟨rfl, ⟨.WAIT_FOR_USER_INPUT, rfl, rfl⟩, by decide⟩
  | answer_input_logic =>
      simp only [runHandler, on_enter_answer_input_logic] at h
      obtain ⟨a, _, rfl⟩ := except_map_ok (except_mapError_ok h)
      exact ⟨rfl, ⟨.MOVE_FORWARD, rfl, rfl⟩, by decide⟩
  | waiting_message =>
      simp only [runHandler, Except.ok.injEq] at h
      subst h; exact ⟨rfl, ⟨.MOVE_FORWARD, rfl, rfl⟩, by decide⟩
  | calculate_score =>
      simp only [runHandler, on_enter_calculate_score] at h
      obtain ⟨a, _, rfl⟩ := except_map_ok (except_mapError_ok h)
      exact ⟨rfl, ⟨.MOVE_FORWARD, rfl, rfl⟩, by decide⟩
  | thankyou_message =>
      simp only [runHandler, Except.ok.injEq] at h
      subst h; exact ⟨rfl, ⟨.MOVE_FORWARD, rfl, rfl⟩, by decide⟩
  | resources_tips =>
      simp only [runHandler, on_enter_resources_tips] at h
      obtain ⟨a, _, rfl⟩ := except_map_ok (except_mapError_ok h)
      exact ⟨rfl, ⟨.MOVE_FORWARD, rfl, rfl⟩, by decide⟩
  | help_support =>
      simp only [runHandler, Except.ok.injEq] at h
      subst h; exact ⟨rfl, ⟨.WAIT_FOR_USER_INPUT, rfl, rfl⟩, by decide⟩
  | end_state =>
      simp only [runHandler, Except.ok.injEq] at h
      subst h; exact ⟨rfl, ⟨.MOVE_FORWARD, rfl, rfl⟩, by decide⟩

/-- C3 (witness): the amended theorem applied to a concrete normal
invocation of the `collect_name` handler. -/
theorem C3_handler_status_protocol_witness :
    runHandler .collect_name initVars "x" env0 =
      .ok ⟨initVars, [Msg.text "Please enter your name."],
           [.WAIT_FOR_ME, .WAIT_FOR_USER_INPUT]⟩
    ∧ (⟨initVars, [Msg.text "Please enter your name."],
        [.WAIT_FOR_ME, .WAIT_FOR_USER_INPUT]⟩ : HandlerResult).writes =
          normalWrites .collect_name :=
  ⟨rfl, (C3_handler_status_protocol .collect_name initVars "x" env0 _ rfl).1⟩

/-! ## Quiz-loop lemmas -/

theorem toJson_getKey_qid (q : QuizQ) :
    (QuizQ.toJson q).getKey "question_id" = .ok (.num q.question_id) := rfl

theorem toJson_getKey_question (q : QuizQ) :
    (QuizQ.toJson q).getKey "question" = .ok (.str q.question) := rfl

theorem toJson_getKey_options (q : QuizQ) :
    (QuizQ.toJson q).getKey "options" =
      .ok (.obj (q.options.map (fun p => (p.1, Json.str p.2)))) := rfl

theorem toJson_getKey_answer (q : QuizQ) :
    (QuizQ.toJson q).getKey "answer" = .ok q.answer := rfl

theorem asStr_str (s : String) : Json.asStr (.str s) = .ok s := rfl

theorem asArr_arr (xs : List Json) : (Json.arr xs).asArr = .ok xs := rfl

theorem getKey_result (x : Json) : (Json.obj [("result", x)]).getKey "result" = .ok x := rfl

theorem ebind_ok {ε α β : Type} (a : α) (f : α → Except ε β) :
    (Except.ok a : Except ε α) >>= f = f a := rfl

theorem ebind_err {ε α β : Type} (e : ε) (f : α → Except ε β) :
    (Except.error e : Except ε α) >>= f = .error e := rfl

theorem emap_ok {ε α β : Type} (f : α → β) (a : α) :
    Except.map f (.ok a : Except ε α) = .ok (f a) := rfl

theorem exceptMapList_optionPairs (l : List (String × String)) :
    exceptMapList
      (fun kv => do
        let s ← kv.2.asStr
        (.ok (kv.1, s) : Except PyErr (String × String)))
      (l.map (fun p => (p.1, Json.str p.2))) = .ok l := by
  induction l with
  | nil => rfl
  | cons p ps ih =>
      have hstep :
          exceptMapList
            (fun (kv : String × Json) => do
              let s ← kv.2.asStr
              (.ok (kv.1, s) : Except PyErr (String × String)))
            (List.map (fun (q : String × String) => (q.1, Json.str q.2)) (p :: ps))
          = exceptMapList
              (fun (kv : String × Json) => do
                let s ← kv.2.asStr
                (.ok (kv.1, s) : Except PyErr (String × String)))
              (List.map (fun (q : String × String) => (q.1, Json.str q.2)) ps) >>=
              (fun bs =>
                (.ok ((p.1, p.2) :: bs) : Except PyErr (List (String × String)))) := rfl
      rw [hstep, ih]
      rfl

theorem pyFilterQ_map (qid : Int) (l : List QuizQ) :
    pyFilterQ (some (.num qid)) (l.map QuizQ.toJson)
      = .ok ((l.filter (fun q => q.question_id == qid)).map QuizQ.toJson) := by
  induction l with
  | nil => rfl
  | cons q qs ih =>
      cases hq : (q.question_id == qid) <;>
        simp [pyFilterQ, toJson_getKey_qid, pyEqQid, Json.beq, ih, List.filter_cons, hq,
          ebind_ok, ebind_err]

theorem qListJson_index (qs : List QuizQ) (c : Nat) (q : QuizQ) (h : qs.get? c = some q) :
    (qListJson qs).index c = .ok (QuizQ.toJson q) := by
  have hm : (qs.map QuizQ.toJson).get? c = some (QuizQ.toJson q) := by
    rw [List.get?_eq_getElem?] at h ⊢
    rw [List.getElem?_map, h]
    rfl
  simp only [qListJson, Json.index]
  rw [hm]

/-- First entry to `show_question` (pool not yet generated, counter 0): the
generate-first-question branch alone runs and succeeds. -/
theorem show_question_first (v : Variables) (qs : List QuizQ) (q0 : QuizQ)
    (hl : v.question_list = none) (hc : v.question_count = 0)
    (h0 : qs.get? 0 = some q0) :
    on_enter_show_question v (.obj [("result", qListJson qs)]) =
      .ok ⟨{ v with question_list := some (qListJson qs),
                    current_question_id := some (.num q0.question_id) },
           [Msg.optionList ("Question 1: " ++ q0.question) "" "" "Question Answer"
              "Question Answer" q0.options],
           [.WAIT_FOR_CALLBACK, .MOVE_FORWARD]⟩ := by
  simp [on_enter_show_question, get_question_from_openai, hl, hc, getKey_result,
    qListJson_index qs 0 q0 h0, toJson_getKey_question, toJson_getKey_qid,
    toJson_getKey_options, asStr_str, exceptMapList_optionPairs,
    ebind_ok, ebind_err, emap_ok]

/-- Loop re-entry to `show_question` (pool present, counter non-zero): the
index-into-pool branch alone runs and succeeds when the index is in
range. -/
theorem show_question_loop (v : Variables) (qs : List QuizQ) (c : Nat) (qc : QuizQ)
    (resp : Json)
    (hl : v.question_list = some (qListJson qs)) (hc : v.question_count = c) (hc0 : c ≠ 0)
    (hgc : qs.get? c = some qc) :
    on_enter_show_question v resp =
      .ok ⟨{ v with current_question_id := some (.num qc.question_id) },
           [Msg.optionList ("Question " ++ toString (c + 1) ++ ": " ++ qc.question) "" ""
              "Question Answer" "Question Answer" qc.options],
           [.WAIT_FOR_CALLBACK, .MOVE_FORWARD]⟩ := by
  subst hc
  simp [on_enter_show_question, hl, hc0, qListJson_index qs _ qc hgc,
    toJson_getKey_question, toJson_getKey_qid, toJson_getKey_options, asStr_str,
    exceptMapList_optionPairs, ebind_ok, ebind_err, emap_ok]

/-- `on_enter_answer_input_logic` succeeds whenever the stored id occurs in
the materialized pool, appending one record to the answer log. -/
theorem ail_ok (v : Variables) (qs : List QuizQ) (qid : Int) (i : String)
    (hl : v.question_list = some (qListJson qs))
    (hcq : v.current_question_id = some (.num qid))
    (hne : (qs.filter (fun q => q.question_id == qid)) ≠ []) :
    ∃ rec, on_enter_answer_input_logic v i =
      .ok ⟨{ v with user_input_param := v.user_input_param ++ [rec] }, [],
           [.WAIT_FOR_ME, .MOVE_FORWARD]⟩ := by
  obtain ⟨m, ms, hm⟩ := List.exists_cons_of_ne_nil hne
  refine ⟨Json.obj [("question_id", .num qid), ("question", .str m.question),
    ("options", .obj (m.options.map (fun p => (p.1, Json.str p.2)))),
    ("answer", m.answer), ("selected_option", .str i)], ?_⟩
  simp [on_enter_answer_input_logic, hl, hcq, qListJson, asArr_arr, pyFilterQ_map, hm,
    toJson_getKey_question, toJson_getKey_options, toJson_getKey_answer,
    ebind_ok, ebind_err, emap_ok]

/-! ## Run-loop step lemmas -/

/-- One ADVANCE step of the chain: handler succeeds with final status
`MOVE_FORWARD` and an edge is selected, so the chain continues at the
destination, prepending this state's outputs and trace entry. -/
theorem runChain_advance_step (env : LLMEnv) (f : Nat) (s : St) (v : Variables)
    (i : String) (r : HandlerResult) (d : St)
    (hr : runHandler s v i env = .ok r)
    (hw : r.writes.getLast? = some .MOVE_FORWARD)
    (hd : selectNext r.vars s = some d) :
    runChain env (f + 1) s v i =
      Except.map
        (fun c => ⟨c.outcome, c.session, r.outputs ++ c.outputs, (s, v) :: c.trace⟩)
        (runChain env f d r.vars i) := by
  have hne : nextEdges s ≠ [] := by
    intro he
    rw [selectNext, he] at hd
    simp [List.find?] at hd
  simp only [runChain, hr, hw]
  cases hE : nextEdges s with
  | nil => exact absurd hE hne
  | cons t ts =>
      simp only [hd]
      cases hc : runChain env f d r.vars i <;> simp [Except.map]

/-- One pausing step of the chain: handler succeeds with final status
`WAIT_FOR_USER_INPUT`, so the chain returns the paused session. -/
theorem runChain_pause_step (env : LLMEnv) (f : Nat) (s : St) (v : Variables)
    (i : String) (r : HandlerResult)
    (hr : runHandler s v i env = .ok r)
    (hw : r.writes.getLast? = some .WAIT_FOR_USER_INPUT) :
    runChain env (f + 1) s v i =
      .ok ⟨.paused .WAIT_FOR_USER_INPUT, ⟨s, r.vars⟩, r.outputs, [(s, v)]⟩ := by
  simp only [runChain, hr, hw]

/-- Resuming a paused session fires `next` and runs the chain from the
selected destination. -/
theorem advance_unfold (env : LLMEnv) (fuel : Nat) (sess : Session) (i : String) (d : St)
    (hd : selectNext sess.vars sess.state = some d) :
    advance env fuel sess i = runChain env fuel d sess.vars i := by
  have hne : nextEdges sess.state ≠ [] := by
    intro he
    rw [selectNext, he] at hd
    simp [List.find?] at hd
  unfold advance
  cases hE : nextEdges sess.state with
  | nil => exact absurd hE hne
  | cons t ts => simp only [hd]

/-- Entering `assessment`: the chain resets the quiz variables, generates
the pool, shows question 1, increments the counter to 1 and pauses at
`question_answer_input` awaiting the first answer. -/
theorem quiz_start (qs : List QuizQ) (scoreMsg : String) (v : Variables) (q0 : QuizQ)
    (i : String) (h0 : qs.get? 0 = some q0) :
    runChain (quizEnv qs scoreMsg) 6 .assessment v i =
      .ok ⟨.paused .WAIT_FOR_USER_INPUT,
           ⟨.question_answer_input, loopVars v qs 1 [] (.num q0.question_id)⟩,
           [Msg.text ("Ready for a quick quiz on " ++ pyStrOpt v.subject ++ "? Let's go! 😊"),
            Msg.optionList ("Question 1: " ++ q0.question) "" "" "Question Answer"
              "Question Answer" q0.options],
           [(.assessment, v), (.show_question, resetVars v),
            (.question_answer_input, loopVars v qs 0 [] (.num q0.question_id))]⟩ := by
  rw [runChain_advance_step (quizEnv qs scoreMsg) 5 .assessment v i
        (on_enter_assessment v) .show_question rfl rfl rfl]
  rw [show HandlerResult.vars (on_enter_assessment v) = resetVars v from rfl]
  have hsq : runHandler .show_question (resetVars v) i (quizEnv qs scoreMsg) =
      .ok ⟨{ resetVars v with question_list := some (qListJson qs),
                              current_question_id := some (.num q0.question_id) },
           [Msg.optionList ("Question 1: " ++ q0.question) "" "" "Question Answer"
              "Question Answer" q0.options],
           [.WAIT_FOR_CALLBACK, .MOVE_FORWARD]⟩ := by
    have hfirst := show_question_first (resetVars v) qs q0 rfl rfl h0
    simp only [runHandler]
    rw [show (quizEnv qs scoreMsg).question_response = .obj [("result", qListJson qs)]
          from rfl, hfirst]
    rfl
  rw [runChain_advance_step (quizEnv qs scoreMsg) 4 .show_question (resetVars v) i
        _ .question_answer_input hsq rfl rfl]
  rw [show HandlerResult.vars
        ⟨{ resetVars v with question_list := some (qListJson qs),
                            current_question_id := some (.num q0.question_id) },
         [Msg.optionList ("Question 1: " ++ q0.question) "" "" "Question Answer"
            "Question Answer" q0.options],
         [.WAIT_FOR_CALLBACK, .MOVE_FORWARD]⟩
        = loopVars v qs 0 [] (.num q0.question_id) from rfl]
  rw [runChain_pause_step (quizEnv qs scoreMsg) 3 .question_answer_input
        (loopVars v qs 0 [] (.num q0.question_id)) i
        (on_enter_question_answer_input (loopVars v qs 0 [] (.num q0.question_id))) rfl rfl]
  simp only [Except.map, on_enter_question_answer_input]
  rfl

/-- One quiz-loop resumption with `c < total_num_question`: the answer is
recorded, the guard sends the flow back through `show_question` (question
`c+1`), and the session pauses again at `question_answer_input` with the
counter incremented to `c + 1`. -/
theorem quiz_loop_step (qs : List QuizQ) (scoreMsg : String) (v : Variables)
    (c : Nat) (acc : List Json) (qid : Int) (qc : QuizQ) (i : String)
    (hc1 : 1 ≤ c) (hcN : c < v.total_num_question)
    (hgc : qs.get? c = some qc)
    (hmem : ∃ m, m ∈ qs ∧ m.question_id = qid) :
    ∃ rec, advance (quizEnv qs scoreMsg) 6
        ⟨.question_answer_input, loopVars v qs c acc (.num qid)⟩ i
      = .ok ⟨.paused .WAIT_FOR_USER_INPUT,
             ⟨.question_answer_input, loopVars v qs (c + 1) (acc ++ [rec])
                (.num qc.question_id)⟩,
             [Msg.optionList ("Question " ++ toString (c + 1) ++ ": " ++ qc.question) "" ""
                "Question Answer" "Question Answer" qc.options],
             [(.answer_input_logic, loopVars v qs c acc (.num qid)),
              (.show_question, loopVars v qs c (acc ++ [rec]) (.num qid)),
              (.question_answer_input, loopVars v qs c (acc ++ [rec])
                 (.num qc.question_id))]⟩ := by
  have hfil : qs.filter (fun q => q.question_id == qid) ≠ [] := by
    obtain ⟨m, hm, hid⟩ := hmem
    exact List.ne_nil_of_mem (List.mem_filter.mpr ⟨hm, by simp [hid]⟩)
  obtain ⟨rec, hail⟩ := ail_ok (loopVars v qs c acc (.num qid)) qs qid i rfl rfl hfil
  refine ⟨rec, ?_⟩
  rw [advance_unfold (quizEnv qs scoreMsg) 6
        ⟨.question_answer_input, loopVars v qs c acc (.num qid)⟩ i
        .answer_input_logic rfl]
  rw [show Session.vars ⟨St.question_answer_input, loopVars v qs c acc (.num qid)⟩
        = loopVars v qs c acc (.num qid) from rfl]
  have hrA : runHandler .answer_input_logic (loopVars v qs c acc (.num qid)) i
      (quizEnv qs scoreMsg)
      = .ok ⟨{ loopVars v qs c acc (.num qid) with
               user_input_param :=
                 (loopVars v qs c acc (.num qid)).user_input_param ++ [rec] }, [],
             [.WAIT_FOR_ME, .MOVE_FORWARD]⟩ := by
    simp only [runHandler, hail]
    rfl
  have hdA : selectNext (loopVars v qs c (acc ++ [rec]) (.num qid)) .answer_input_logic
      = some .show_question := by
    have hb : (v.total_num_question == c) = false := by
      simp [Nat.ne_of_gt hcN]
    rw [selectNext_answer_input_logic]
    simp [is_send_another_question, loopVars, hb]
  rw [runChain_advance_step (quizEnv qs scoreMsg) 5 .answer_input_logic
        (loopVars v qs c acc (.num qid)) i _ .show_question hrA rfl hdA]
  rw [show HandlerResult.vars
        ⟨{ loopVars v qs c acc (.num qid) with
           user_input_param :=
             (loopVars v qs c acc (.num qid)).user_input_param ++ [rec] }, [],
         [.WAIT_FOR_ME, .MOVE_FORWARD]⟩
        = loopVars v qs c (acc ++ [rec]) (.num qid) from rfl]
  have hsqL := show_question_loop (loopVars v qs c (acc ++ [rec]) (.num qid)) qs c qc
    (quizEnv qs scoreMsg).question_response rfl rfl (Nat.one_le_iff_ne_zero.mp hc1) hgc
  have hrS : runHandler .show_question (loopVars v qs c (acc ++ [rec]) (.num qid)) i
      (quizEnv qs scoreMsg)
      = .ok ⟨{ loopVars v qs c (acc ++ [rec]) (.num qid) with
               current_question_id := some (.num qc.question_id) },
             [Msg.optionList ("Question " ++ toString (c + 1) ++ ": " ++ qc.question) "" ""
                "Question Answer" "Question Answer" qc.options],
             [.WAIT_FOR_CALLBACK, .MOVE_FORWARD]⟩ := by
    simp only [runHandler]
    rw [hsqL]
    rfl
  rw [runChain_advance_step (quizEnv qs scoreMsg) 4 .show_question
        (loopVars v qs c (acc ++ [rec]) (.num qid)) i _ .question_answer_input hrS rfl rfl]
  rw [show HandlerResult.vars
        ⟨{ loopVars v qs c (acc ++ [rec]) (.num qid) with
           current_question_id := some (.num qc.question_id) },
         [Msg.optionList ("Question " ++ toString (c + 1) ++ ": " ++ qc.question) "" ""
            "Question Answer" "Question Answer" qc.options],
         [.WAIT_FOR_CALLBACK, .MOVE_FORWARD]⟩
        = loopVars v qs c (acc ++ [rec]) (.num qc.question_id) from rfl]
  rw [runChain_pause_step (quizEnv qs scoreMsg) 3 .question_answer_input
        (loopVars v qs c (acc ++ [rec]) (.num qc.question_id)) i
        (on_enter_question_answer_input
          (loopVars v qs c (acc ++ [rec]) (.num qc.question_id))) rfl rfl]
  simp only [Except.map, on_enter_question_answer_input]
  rfl

/-- The last quiz-loop resumption (`c = total_num_question`): the answer is
recorded, the guard is false, and the chain exits through
`waiting_message`, `calculate_score` and `thankyou_message` (which resets
the quiz variables) before pausing at `home_screen`. -/
theorem quiz_finish_step (qs : List QuizQ) (scoreMsg : String) (v : Variables)
    (c : Nat) (acc : List Json) (qid : Int) (i : String)
    (hc : c = v.total_num_question)
    (hmem : ∃ m, m ∈ qs ∧ m.question_id = qid) :
    ∃ rec, advance (quizEnv qs scoreMsg) 6
        ⟨.question_answer_input, loopVars v qs c acc (.num qid)⟩ i
      = .ok ⟨.paused .WAIT_FOR_USER_INPUT, ⟨.home_screen, resetVars v⟩,
             [Msg.text "Please wait while we are calculating your score",
              Msg.text scoreMsg,
              Msg.text "Thank you for attempting MX Quiz!",
              Msg.button "What would you like to do today?" "" ""
                [("competencies", "Learn about competencies"),
                 ("assessment", "Take an assessment"),
                 ("resources", "Resources & Tips"),
                 ("help", "Help/Support")]],
             [(.answer_input_logic, loopVars v qs c acc (.num qid)),
              (.waiting_message, loopVars v qs c (acc ++ [rec]) (.num qid)),
              (.calculate_score, loopVars v qs c (acc ++ [rec]) (.num qid)),
              (.thankyou_message, loopVars v qs c (acc ++ [rec]) (.num qid)),
              (.home_screen, resetVars v)]⟩ := by
  have hfil : qs.filter (fun q => q.question_id == qid) ≠ [] := by
    obtain ⟨m, hm, hid⟩ := hmem
    exact List.ne_nil_of_mem (List.mem_filter.mpr ⟨hm, by simp [hid]⟩)
  obtain ⟨rec, hail⟩ := ail_ok (loopVars v qs c acc (.num qid)) qs qid i rfl rfl hfil
  refine ⟨rec, ?_⟩
  rw [advance_unfold (quizEnv qs scoreMsg) 6
        ⟨.question_answer_input, loopVars v qs c acc (.num qid)⟩ i
        .answer_input_logic rfl]
  rw [show Session.vars ⟨St.question_answer_input, loopVars v qs c acc (.num qid)⟩
        = loopVars v qs c acc (.num qid) from rfl]
  have hrA : runHandler .answer_input_logic (loopVars v qs c acc (.num qid)) i
      (quizEnv qs scoreMsg)
      = .ok ⟨{ loopVars v qs c acc (.num qid) with
               user_input_param :=
                 (loopVars v qs c acc (.num qid)).user_input_param ++ [rec] }, [],
             [.WAIT_FOR_ME, .MOVE_FORWARD]⟩ := by
    simp only [runHandler, hail]
    rfl
  have hdA : selectNext (loopVars v qs c (acc ++ [rec]) (.num qid)) .answer_input_logic
      = some .waiting_message := by
    have hb : (v.total_num_question == c) = true := by
      simp [hc]
    rw [selectNext_answer_input_logic]
    simp [is_send_another_question, loopVars, hb]
  rw [runChain_advance_step (quizEnv qs scoreMsg) 5 .answer_input_logic
        (loopVars v qs c acc (.num qid)) i _ .waiting_message hrA rfl hdA]
  rw [show HandlerResult.vars
        ⟨{ loopVars v qs c acc (.num qid) with
           user_input_param :=
             (loopVars v qs c acc (.num qid)).user_input_param ++ [rec] }, [],
         [.WAIT_FOR_ME, .MOVE_FORWARD]⟩
        = loopVars v qs c (acc ++ [rec]) (.num qid) from rfl]
  rw [runChain_advance_step (quizEnv qs scoreMsg) 4 .waiting_message
        (loopVars v qs c (acc ++ [rec]) (.num qid)) i
        (on_enter_waiting_message (loopVars v qs c (acc ++ [rec]) (.num qid)))
        .calculate_score rfl rfl rfl]
  rw [show HandlerResult.vars
        (on_enter_waiting_message (loopVars v qs c (acc ++ [rec]) (.num qid)))
        = loopVars v qs c (acc ++ [rec]) (.num qid) from rfl]
  rw [runChain_advance_step (quizEnv qs scoreMsg) 3 .calculate_score
        (loopVars v qs c (acc ++ [rec]) (.num qid)) i
        ⟨loopVars v qs c (acc ++ [rec]) (.num qid), [Msg.text scoreMsg],
         [.WAIT_FOR_ME, .MOVE_FORWARD]⟩
        .thankyou_message rfl rfl rfl]
  rw [show HandlerResult.vars
        ⟨loopVars v qs c (acc ++ [rec]) (.num qid), [Msg.text scoreMsg],
         [.WAIT_FOR_ME, .MOVE_FORWARD]⟩
        = loopVars v qs c (acc ++ [rec]) (.num qid) from rfl]
  rw [runChain_advance_step (quizEnv qs scoreMsg) 2 .thankyou_message
        (loopVars v qs c (acc ++ [rec]) (.num qid)) i
        (on_enter_thankyou_message (loopVars v qs c (acc ++ [rec]) (.num qid)))
        .home_screen rfl rfl rfl]
  rw [show HandlerResult.vars
        (on_enter_thankyou_message (loopVars v qs c (acc ++ [rec]) (.num qid)))
        = resetVars v from rfl]
  rw [runChain_pause_step (quizEnv qs scoreMsg) 1 .home_screen (resetVars v) i
        (on_enter_home_screen (resetVars v)) rfl rfl]
  simp only [Except.map, on_enter_home_screen, on_enter_thankyou_message,
    on_enter_waiting_message]
  rfl

/-- Feeding the remaining answers to a session paused inside the quiz loop:
the run ends paused at `home_screen` with the quiz variables reset, having
entered `show_question` once per remaining loop iteration and
`waiting_message` exactly once; every `answer_input_logic` entry has
`1 ≤ question_count ≤ total_num_question`, and every `show_question` entry
has the pool materialized with the counter a valid non-zero index. -/
theorem quiz_feed (qs : List QuizQ) (scoreMsg : String) (v : Variables) :
    ∀ (answers : List String) (c : Nat) (acc : List Json) (qid : Int),
    1 ≤ c → c ≤ v.total_num_question → v.total_num_question ≤ qs.length →
    c + answers.length = v.total_num_question + 1 →
    (∃ m, m ∈ qs ∧ m.question_id = qid) →
    ∃ tr, feedAll (quizEnv qs scoreMsg) 6
        ⟨.question_answer_input, loopVars v qs c acc (.num qid)⟩ answers
      = .ok (⟨.home_screen, resetVars v⟩, tr)
      ∧ tr.countP (fun p => p.1 == St.show_question) = v.total_num_question - c
      ∧ tr.countP (fun p => p.1 == St.waiting_message) = 1
      ∧ (∀ p ∈ tr, p.1 = St.answer_input_logic →
          1 ≤ p.2.question_count ∧ p.2.question_count ≤ v.total_num_question)
      ∧ (∀ p ∈ tr, p.1 = St.show_question →
          p.2.question_list = some (qListJson qs) ∧ p.2.question_count ≠ 0
          ∧ p.2.question_count < qs.length
          ∧ ∃ r, on_enter_show_question p.2 (quizEnv qs scoreMsg).question_response
              = .ok r) := by
  intro answers
  induction answers with
  | nil =>
      intro c acc qid hc1 hcN hlen hcount hmem
      exfalso
      simp at hcount
      omega
  | cons i rest ih =>
      intro c acc qid hc1 hcN hlen hcount hmem
      by_cases hceq : c = v.total_num_question
      · have hrest : rest = [] := by
          have : rest.length = 0 := by
            simp at hcount
            omega
          exact List.eq_nil_of_length_eq_zero this
        subst hrest
        obtain ⟨rec, hstep⟩ := quiz_finish_step qs scoreMsg v c acc qid i hceq hmem
        refine ⟨[(.answer_input_logic, loopVars v qs c acc (.num qid)),
                 (.waiting_message, loopVars v qs c (acc ++ [rec]) (.num qid)),
                 (.calculate_score, loopVars v qs c (acc ++ [rec]) (.num qid)),
                 (.thankyou_message, loopVars v qs c (acc ++ [rec]) (.num qid)),
                 (.home_screen, resetVars v)], ?_, ?_, ?_, ?_, ?_⟩
        · simp [feedAll, hstep, ebind_ok]
        · simp [List.countP_cons]
          omega
        · simp [List.countP_cons]
        · intro p hp hpst
          simp only [List.mem_cons, List.mem_singleton, List.not_mem_nil, or_false] at hp
          rcases hp with rfl | rfl | rfl | rfl | rfl
          · exact ⟨hc1, hcN⟩
          · simp at hpst
          · simp at hpst
          · simp at hpst
          · simp at hpst
        · intro p hp hpst
          simp only [List.mem_cons, List.mem_singleton, List.not_mem_nil, or_false] at hp
          rcases hp with rfl | rfl | rfl | rfl | rfl
          · simp at hpst
          · simp at hpst
          · simp at hpst
          · simp at hpst
          · simp at hpst
      · have hclt : c < v.total_num_question := lt_of_le_of_ne hcN hceq
        have hcqs : c < qs.length := lt_of_lt_of_le hclt hlen
        obtain ⟨qc, hgc⟩ : ∃ qc, qs.get? c = some qc :=
          ⟨qs.get ⟨c, hcqs⟩, List.get?_eq_get hcqs⟩
        obtain ⟨rec, hstep⟩ := quiz_loop_step qs scoreMsg v c acc qid qc i hc1 hclt hgc hmem
        have hmem' : ∃ m, m ∈ qs ∧ m.question_id = qc.question_id :=
          ⟨qc, List.get?_mem hgc, rfl⟩
        obtain ⟨tr, hfeed, hcount1, hcount2, hailC, hsqC⟩ :=
          ih (c + 1) (acc ++ [rec]) qc.question_id (by omega) (by omega) hlen
            (by simp at hcount ⊢; omega) hmem'
        refine ⟨(.answer_input_logic, loopVars v qs c acc (.num qid)) ::
                (.show_question, loopVars v qs c (acc ++ [rec]) (.num qid)) ::
                (.question_answer_input,
                  loopVars v qs c (acc ++ [rec]) (.num qc.question_id)) :: tr,
                ?_, ?_, ?_, ?_, ?_⟩
        · simp [feedAll, hstep, ebind_ok, hfeed]
        · simp [List.countP_cons, hcount1]
          omega
        · simp [List.countP_cons, hcount2]
        · intro p hp hpst
          simp only [List.mem_cons] at hp
          rcases hp with rfl | rfl | rfl | hp
          · exact ⟨hc1, hcN⟩
          · simp at hpst
          · simp at hpst
          · exact hailC p hp hpst
        · intro p hp hpst
          simp only [List.mem_cons] at hp
          rcases hp with rfl | rfl | rfl | hp
          · simp at hpst
          · refine ⟨rfl, Nat.one_le_iff_ne_zero.mp hc1, hcqs, ?_⟩
            exact ⟨_, show_question_loop (loopVars v qs c (acc ++ [rec]) (.num qid)) qs c qc
              (quizEnv qs scoreMsg).question_response rfl rfl
              (Nat.one_le_iff_ne_zero.mp hc1) hgc⟩
          · simp at hpst
          · exact hsqC p hp hpst

/-- C1: starting the quiz sub-flow at `assessment` (which resets
`question_count` to 0) with repeat bound `N = total_num_question ≥ 1` and a
well-formed generated pool of at least `N` questions: the guard
`is_send_another_question` is false exactly when `question_count = N`, each
pass through `question_answer_input` increments the counter by exactly 1,
the run enters `show_question` exactly `N` times before reaching
`waiting_message` (entered once), and on every entry to
`answer_input_logic` the counter never exceeds `N`. -/
theorem C1_quiz_loop_terminates (qs : List QuizQ) (scoreMsg : String) (v : Variables)
    (entryInput : String) (answers : List String)
    (hN : 1 ≤ v.total_num_question) (hlen : v.total_num_question ≤ qs.length)
    (ha : answers.length = v.total_num_question) :
    (∀ w : Variables,
      (is_send_another_question w = false ↔ w.total_num_question = w.question_count))
    ∧ (∀ w : Variables,
        (on_enter_question_answer_input w).vars.question_count = w.question_count + 1)
    ∧ ∃ tr, quizRun (quizEnv qs scoreMsg) 6 v entryInput answers
        = .ok (⟨.home_screen, resetVars v⟩, tr)
      ∧ tr.countP (fun p => p.1 == St.show_question) = v.total_num_question
      ∧ tr.countP (fun p => p.1 == St.waiting_message) = 1
      ∧ ∀ p ∈ tr, p.1 = St.answer_input_logic →
          p.2.question_count ≤ v.total_num_question := by
  refine ⟨?_, ?_, ?_⟩
  · intro w
    by_cases h : w.total_num_question = w.question_count <;>
      simp [is_send_another_question, h]
  · intro w
    rfl
  · have h0len : 0 < qs.length := lt_of_lt_of_le hN hlen
    obtain ⟨q0, hg0⟩ : ∃ q0, qs.get? 0 = some q0 :=
      ⟨qs.get ⟨0, h0len⟩, List.get?_eq_get h0len⟩
    have hstart := quiz_start qs scoreMsg v q0 entryInput hg0
    have hmem : ∃ m, m ∈ qs ∧ m.question_id = q0.question_id :=
      ⟨q0, List.get?_mem hg0, rfl⟩
    obtain ⟨tr, hfeed, hcA, hcB, hA, hS⟩ :=
      quiz_feed qs scoreMsg v answers 1 [] q0.question_id (le_refl 1) hN hlen
        (by omega) hmem
    refine ⟨[(.assessment, v), (.show_question, resetVars v),
             (.question_answer_input, loopVars v qs 0 [] (.num q0.question_id))] ++ tr,
            ?_, ?_, ?_, ?_⟩
    · simp [quizRun, hstart, ebind_ok, hfeed]
    · simp [List.countP_cons, hcA]
      omega
    · simp [List.countP_cons, hcB]
    · intro p hp hpst
      simp only [List.cons_append, List.nil_append, List.mem_cons] at hp
      rcases hp with rfl | rfl | rfl | hp
      · simp at hpst
      · simp at hpst
      · simp at hpst
      · exact (hA p hp hpst).2

/-- C1 (witness): the theorem applied to the default store (`N = 5`), the
concrete five-question pool `qs5` and five concrete answers. -/
theorem C1_quiz_loop_terminates_witness :
    (1 ≤ initVars.total_num_question ∧ initVars.total_num_question ≤ qs5.length
      ∧ answers5.length = initVars.total_num_question)
    ∧ ∃ tr, quizRun (quizEnv qs5 "You scored 5/5") 6 initVars "go" answers5
        = .ok (⟨.home_screen, resetVars initVars⟩, tr)
      ∧ tr.countP (fun p => p.1 == St.show_question) = initVars.total_num_question
      ∧ tr.countP (fun p => p.1 == St.waiting_message) = 1
      ∧ ∀ p ∈ tr, p.1 = St.answer_input_logic →
          p.2.question_count ≤ initVars.total_num_question :=
  ⟨⟨by decide, by decide, rfl⟩,
   (C1_quiz_loop_terminates qs5 "You scored 5/5" initVars "go" answers5
      (by decide) (by decide) rfl).2.2⟩

/-- C10: on every entry to `show_question` in a quiz run with a well-formed
pool of at least `total_num_question ≥ 1` questions, `question_list` is
`None` exactly when `question_count = 0` (so exactly one of the handler's
two branches runs and the local `options` is always bound), the non-zero
counter is always a valid index into the pool, and the handler returns
normally at every such entry. -/
theorem C10_show_question_entry_invariant (qs : List QuizQ) (scoreMsg : String)
    (v : Variables) (entryInput : String) (answers : List String)
    (hN : 1 ≤ v.total_num_question) (hlen : v.total_num_question ≤ qs.length)
    (ha : answers.length = v.total_num_question) :
    ∃ tr, quizRun (quizEnv qs scoreMsg) 6 v entryInput answers
        = .ok (⟨.home_screen, resetVars v⟩, tr)
      ∧ ∀ p ∈ tr, p.1 = St.show_question →
          ((p.2.question_list = none ↔ p.2.question_count = 0)
           ∧ (p.2.question_count ≠ 0 → p.2.question_count < qs.length)
           ∧ ∃ r, on_enter_show_question p.2 (quizEnv qs scoreMsg).question_response
               = .ok r) := by
  have h0len : 0 < qs.length := lt_of_lt_of_le hN hlen
  obtain ⟨q0, hg0⟩ : ∃ q0, qs.get? 0 = some q0 :=
    ⟨qs.get ⟨0, h0len⟩, List.get?_eq_get h0len⟩
  have hstart := quiz_start qs scoreMsg v q0 entryInput hg0
  have hmem : ∃ m, m ∈ qs ∧ m.question_id = q0.question_id :=
    ⟨q0, List.get?_mem hg0, rfl⟩
  obtain ⟨tr, hfeed, hcA, hcB, hA, hS⟩ :=
    quiz_feed qs scoreMsg v answers 1 [] q0.question_id (le_refl 1) hN hlen
      (by omega) hmem
  refine ⟨[(.assessment, v), (.show_question, resetVars v),
           (.question_answer_input, loopVars v qs 0 [] (.num q0.question_id))] ++ tr,
          ?_, ?_⟩
  · simp [quizRun, hstart, ebind_ok, hfeed]
  · intro p hp hpst
    simp only [List.cons_append, List.nil_append, List.mem_cons] at hp
    rcases hp with rfl | rfl | rfl | hp
    · simp at hpst
    · exact ⟨⟨fun _ => rfl, fun _ => rfl⟩, fun h => absurd rfl h,
        _, show_question_first (resetVars v) qs q0 rfl rfl hg0⟩
    · simp at hpst
    · obtain ⟨hlist, hcnt, hlt, hex⟩ := hS p hp hpst
      refine ⟨?_, fun _ => hlt, hex⟩
      rw [hlist]
      simp [hcnt]

/-- C10 (witness): the theorem applied to the default store (`N = 5`), the
concrete five-question pool `qs5` and five concrete answers. -/
theorem C10_show_question_entry_invariant_witness :
    (1 ≤ initVars.total_num_question ∧ initVars.total_num_question ≤ qs5.length
      ∧ answers5.length = initVars.total_num_question)
    ∧ ∃ tr, quizRun (quizEnv qs5 "Your score is 5/5") 6 initVars "start" answers5
        = .ok (⟨.home_screen, resetVars initVars⟩, tr)
      ∧ ∀ p ∈ tr, p.1 = St.show_question →
          ((p.2.question_list = none ↔ p.2.question_count = 0)
           ∧ (p.2.question_count ≠ 0 → p.2.question_count < qs5.length)
           ∧ ∃ r, on_enter_show_question p.2
               (quizEnv qs5 "Your score is 5/5").question_response = .ok r) :=
  ⟨⟨by decide, by decide, rfl⟩,
   C10_show_question_entry_invariant qs5 "Your score is 5/5" initVars "start" answers5
     (by decide) (by decide) rfl⟩
